import Mathlib

/-!
# Verification of the NSFH replication pipeline

Shallow embedding of the cohort/sex replication scripts
(`replicate_nsfh_wave1.py`, `replicate_nsfh_wave2.py`,
`replicate_nsfh_wave3.py`, `replicate_nsfh_stacked.py`, `nsfh_plots.py`).

Numeric cell values are modelled as `Option ℚ`: `none` is pandas `NaN`.
Comparisons against `NaN` are `False` in pandas, which the `opt*` helpers
mirror.  Boolean-valued derived columns that the scripts build with
`astype(int)` / `astype(float)` of a boolean mask are total (`ℚ`-valued):
such a mask can never hold `NaN`.
-/

namespace NSFH

/-- Comparison `c ≤ x` with pandas semantics: `NaN` compares `False`. -/
def optGe (x : Option ℚ) (c : ℚ) : Bool :=
  match x with
  | some v => decide (c ≤ v)
  | none => false

/-- Comparison `x ≤ c` with pandas semantics: `NaN` compares `False`. -/
def optLe (x : Option ℚ) (c : ℚ) : Bool :=
  match x with
  | some v => decide (v ≤ c)
  | none => false

/-- Equality test `x == c` with pandas semantics: `NaN == c` is `False`. -/
def optEq (x : Option ℚ) (c : ℚ) : Bool :=
  match x with
  | some v => decide (v = c)
  | none => false

/-- Mean of a list of rationals; `none` on the empty list (pandas
`Series.mean()` of an all-`NaN`/empty selection is `NaN`). -/
def optMean (l : List ℚ) : Option ℚ :=
  if l.isEmpty then none else some (l.sum / l.length)

end NSFH

namespace Wave1

open NSFH

/-- Column `num_marriages` of wave 1: `df["M95"].replace({99: np.nan})`. -/
def num_marriages (m95 : Option ℚ) : Option ℚ :=
  m95.bind (fun v => if v = 99 then none else some v)

/-- Column `ever_married` of wave 1:
`(df["num_marriages"].fillna(0) >= 1).astype(int)` — total (0/1),
a missing count is silently treated as 0. -/
def ever_married (nm : Option ℚ) : ℚ :=
  if 1 ≤ nm.getD 0 then 1 else 0

/-- Column `remarried_2plus` of wave 1: `(df["num_marriages"] >= 2).astype(int)`. -/
def remarried_2plus (nm : Option ℚ) : ℚ :=
  if optGe nm 2 then 1 else 0

/-- Column `ever_cohabited` of wave 1: `(df["num_cohab_partners"] >= 1).astype(int)`. -/
def ever_cohabited (ncp : Option ℚ) : ℚ :=
  if optGe ncp 1 then 1 else 0

/-- Column `ever_partnered` of wave 1:
`((df["ever_married"] == 1) | (df["ever_cohabited"] == 1)).astype(int)`. -/
def ever_partnered (em ec : ℚ) : ℚ :=
  if em = 1 ∨ ec = 1 then 1 else 0

/-- Column `age_le_35` of wave 1: `(df["age"] <= 35).astype(int)` — total,
a missing age yields 0, not `NaN`. -/
def age_le_35 (age : Option ℚ) : ℚ :=
  if optLe age 35 then 1 else 0

end Wave1

namespace Wave2

open NSFH

/-- Missing-value sentinel set `COMMON_MISS` of wave 2. -/
def COMMON_MISS : List ℚ :=
  [7, 8, 9, 97, 98, 99, 997, 998, 999, 9997, 9998, 9999, 99997, 99998, 99999]

/-- Function `recode_missing_numeric`: successive `x.mask(x == c)` over the
sentinel codes; a sentinel value becomes `NaN`. -/
def recode_missing_numeric (miss : List ℚ) (x : Option ℚ) : Option ℚ :=
  x.bind (fun v => if v ∈ miss then none else some v)

/-- Column `ever_married` of wave 2:
`np.where((num_marriages >= 1) | (mi40 == 1), 1,
          np.where(mi40.isna() & num_marriages.isna(), np.nan, 0))`. -/
def ever_married (num_marriages mi40 : Option ℚ) : Option ℚ :=
  if optGe num_marriages 1 || optEq mi40 1 then some 1
  else if mi40 = none ∧ num_marriages = none then none
  else some 0

/-- Column `remarried_2plus` of wave 2:
`np.where(num_marriages >= 2, 1, np.where(num_marriages.isna(), np.nan, 0))`. -/
def remarried_2plus (num_marriages : Option ℚ) : Option ℚ :=
  if optGe num_marriages 2 then some 1
  else if num_marriages = none then none
  else some 0

/-- Column `ever_cohabited` of wave 2:
`np.where((num_cohab_partners >= 1) | (mi42 == 1), 1,
          np.where(mi42.isna() & num_cohab_partners.isna(), np.nan, 0))`. -/
def ever_cohabited (num_cohab_partners mi42 : Option ℚ) : Option ℚ :=
  if optGe num_cohab_partners 1 || optEq mi42 1 then some 1
  else if mi42 = none ∧ num_cohab_partners = none then none
  else some 0

/-- Column `ever_partnered` of wave 2:
`np.where((ever_married == 1) | (ever_cohabited == 1), 1,
          np.where(isna(ever_married) & isna(ever_cohabited), np.nan, 0))`. -/
def ever_partnered (em ec : Option ℚ) : Option ℚ :=
  if optEq em 1 || optEq ec 1 then some 1
  else if em = none ∧ ec = none then none
  else some 0

/-- Column `age_le_35` of wave 2:
`np.where(age <= 35, 1, np.where(age.isna(), np.nan, 0))`. -/
def age_le_35 (age : Option ℚ) : Option ℚ :=
  if optLe age 35 then some 1
  else if age = none then none
  else some 0

/-- Column `sex_label` of wave 2:
`np.where(sex==1, "Male", np.where(sex==2, "Female", np.nan))`.
NumPy promotes the mixed string/float operands to a string dtype, so the
`np.nan` branch materialises as the literal string `"nan"`. -/
def sex_label (sex : Option ℚ) : String :=
  if optEq sex 1 then "Male"
  else if optEq sex 2 then "Female"
  else "nan"

end Wave2

namespace Wave3

open NSFH

/-- Column `ever_married` of wave 3: `ms.isin([1,2,3,4]).astype(float)` —
total (0/1); a missing marital status is coded 0. -/
def ever_married (ms : Option ℚ) : ℚ :=
  if ms = some 1 ∨ ms = some 2 ∨ ms = some 3 ∨ ms = some 4 then 1 else 0

/-- Column `remarried_2plus` of wave 3:
`((ever_married == 1) & (mb == 2)).astype(float)`. -/
def remarried_2plus (ms mb : Option ℚ) : ℚ :=
  if ever_married ms = 1 ∧ mb = some 2 then 1 else 0

/-- Column `num_marriages` of wave 3: an all-`NaN` series overwritten by
three `.loc` assignments (`ever_married==0 ↦ 0`,
`ever_married==1 & remarried_2plus==0 ↦ 1`, `remarried_2plus==1 ↦ 2`),
later assignments taking precedence. -/
def num_marriages (ms mb : Option ℚ) : Option ℚ :=
  if remarried_2plus ms mb = 1 then some 2
  else if ever_married ms = 1 ∧ remarried_2plus ms mb = 0 then some 1
  else if ever_married ms = 0 then some 0
  else none

/-- Column `ever_cohabited` of wave 3: `coh.eq(1).astype(float)` when a
cohabitation status column was found, else an all-`NaN` series. -/
def ever_cohabited (hasCoh : Bool) (coh : Option ℚ) : Option ℚ :=
  if hasCoh then some (if coh = some 1 then 1 else 0) else none

/-- Column `ever_partnered` of wave 3:
`((ever_married==1) | (ever_cohabited==1)).astype(float)` — total (0/1). -/
def ever_partnered (ms : Option ℚ) (ec : Option ℚ) : ℚ :=
  if ever_married ms = 1 ∨ ec = some 1 then 1 else 0

/-- Column `age_le_35` of wave 3: `age.le(35).astype(float)` — total,
a missing age yields 0, not `NaN`. -/
def age_le_35 (age : Option ℚ) : ℚ :=
  if optLe age 35 then 1 else 0

end Wave3

namespace StackedW

open NSFH

/-- Fallback derivation of `age_le_35` in `read_analytic`
(`(pd.to_numeric(df["age"], errors="coerce") <= 35).astype("Int64")`) —
total, a missing age yields 0, not `NA`. -/
def age_le_35_fallback (age : Option ℚ) : ℚ :=
  if optLe age 35 then 1 else 0

end StackedW

namespace Binning

/-- One bin of a `pd.cut` specification.  `lo = none` / `hi = none` stand
for the infinite ends `-np.inf` / `np.inf`; the `Incl` flags record whether
the finite bound is inclusive. -/
structure Iv where
  lo : Option ℚ
  loIncl : Bool
  hi : Option ℚ
  hiIncl : Bool
  label : String

/-- Membership of a (non-`NaN`) value in one bin. -/
def memIv (y : ℚ) (iv : Iv) : Bool :=
  (match iv.lo with
   | none => true
   | some l => if iv.loIncl then decide (l ≤ y) else decide (l < y)) &&
  (match iv.hi with
   | none => true
   | some h => if iv.hiIncl then decide (y ≤ h) else decide (y < h))

/-- Semantics of `pd.cut`: a `NaN` input stays `NaN`; otherwise the label of
the bin containing the value, or `NaN` if no bin contains it. -/
def pdCut (spec : List Iv) (y : Option ℚ) : Option String :=
  y.bind (fun v => (spec.find? (memIv v)).map (·.label))

/-- Wave 1 primary scheme: `pd.cut(birth_year,
bins=[1951.5, 1956.5, 1960.5, 1964.5, 1968.5, 1972.5], include_lowest=True)`
(right-closed, bounded at both ends). -/
def w1PrimarySpec : List Iv :=
  [⟨some 1951.5, true, some 1956.5, true, "1952–56"⟩,
   ⟨some 1956.5, false, some 1960.5, true, "1957–60"⟩,
   ⟨some 1960.5, false, some 1964.5, true, "1961–64"⟩,
   ⟨some 1964.5, false, some 1968.5, true, "1965–68"⟩,
   ⟨some 1968.5, false, some 1972.5, true, "1969–72"⟩]

/-- Wave 1 ten-year scheme: `pd.cut(birth_year,
bins=[-np.inf, 1949.5, 1959.5, 1969.5, 1979.5, np.inf], include_lowest=True)`. -/
def w1DecadeSpec : List Iv :=
  [⟨none, true, some 1949.5, true, "≤1949"⟩,
   ⟨some 1949.5, false, some 1959.5, true, "1950–59"⟩,
   ⟨some 1959.5, false, some 1969.5, true, "1960–69"⟩,
   ⟨some 1969.5, false, some 1979.5, true, "1970–79"⟩,
   ⟨some 1979.5, false, none, true, "≥1980"⟩]

/-- Wave 2 ten-year binner (source function name `m****_bin`): an explicit
if/elif chain ending in an unconditional `return "≥1980"`, applied to an
integerised birth year; `NaN` propagates. -/
def w2DecadeBin (birthYear : Option ℤ) : Option String :=
  match birthYear with
  | none => none
  | some b =>
    if b ≤ 1949 then some "≤1949"
    else if 1950 ≤ b ∧ b ≤ 1959 then some "1950–59"
    else if 1960 ≤ b ∧ b ≤ 1969 then some "1960–69"
    else if 1970 ≤ b ∧ b ≤ 1979 then some "1970–79"
    else some "≥1980"

/-- Wave 2 primary scheme: data-dependent five-year bins
`pd.cut(birth_year, bins=range(start, end+2, 5), right=False)` — left-closed
right-open bins, bounded at both ends.  `start` is the lowest multiple of 5
in the observed range and `nbins` the number of bins. -/
def w2PrimarySpec (start : ℚ) (nbins : ℕ) : List Iv :=
  (List.range nbins).map (fun (i : ℕ) =>
    ⟨some (start + 5 * (i : ℚ)), true, some (start + 5 * (i : ℚ) + 5), false,
     toString (start + 5 * (i : ℚ)) ++ "-" ++ toString (start + 5 * (i : ℚ) + 4)⟩)

/-- Wave 3 primary scheme (`make_primary_cohort`): `pd.cut(birth_year,
bins=[-np.inf, 1939, 1949, 1959, 1969, 1979, 1989, 1999, np.inf],
right=True)` — open-ended at both ends. -/
def w3PrimarySpec : List Iv :=
  [⟨none, true, some 1939, true, "≤1939"⟩,
   ⟨some 1939, false, some 1949, true, "1940–49"⟩,
   ⟨some 1949, false, some 1959, true, "1950–59"⟩,
   ⟨some 1959, false, some 1969, true, "1960–69"⟩,
   ⟨some 1969, false, some 1979, true, "1970–79"⟩,
   ⟨some 1979, false, some 1989, true, "1980–89"⟩,
   ⟨some 1989, false, some 1999, true, "1990–99"⟩,
   ⟨some 1999, false, none, true, "≥2000"⟩]

/-- Wave 3 ten-year scheme (`make_m****_cohort`): `pd.cut(birth_year,
bins=[-np.inf, 1949, 1959, 1969, 1979, np.inf], right=True)`. -/
def w3DecadeSpec : List Iv :=
  [⟨none, true, some 1949, true, "≤1949"⟩,
   ⟨some 1949, false, some 1959, true, "1950–59"⟩,
   ⟨some 1959, false, some 1969, true, "1960–69"⟩,
   ⟨some 1969, false, some 1979, true, "1970–79"⟩,
   ⟨some 1979, false, none, true, "≥1980"⟩]

end Binning

namespace Plots

/-- Per-cohort gap statistic record of `plot_gap_by_wave` in `nsfh_plots.py`. -/
structure GapStats where
  gap : ℚ
  se : ℚ
  lo : ℚ
  hi : ℚ

/-- Computation of `plot_gap_by_wave` for one merged cohort row:
`gap = p_F − p_M`, `se = sqrt(p_F(1−p_F)/N_F + p_M(1−p_M)/N_M)`,
`lo = gap − 1.96 se`, `hi = gap + 1.96 se`.  The square root is abstracted
as a function argument `sq`. -/
def gapStats (sq : ℚ → ℚ) (pF nF pM nM : ℚ) : GapStats :=
  let gap := pF - pM
  let se := sq (pF * (1 - pF) / nF + pM * (1 - pM) / nM)
  { gap := gap, se := se, lo := gap - 1.96 * se, hi := gap + 1.96 * se }

end Plots

namespace Stacker

/-- One per-wave analytic table: a column-name list and rows, each row a
finite map from column names to optional cell values. -/
structure Tbl (α : Type) where
  cols : List String
  rows : List (String → Option α)

/-- Re-expression of one row over the union schema: columns the row's table
lacks read `NaN` (the `d[c] = pd.NA` fill followed by `d[cols]`). -/
def reexpand (t : Tbl α) (r : String → Option α) : String → Option α :=
  fun c => if c ∈ t.cols then r c else none

/-- Column union of `stack_align`: `sorted(set().union(*...))`. -/
def stackCols (ts : List (Tbl α)) : List String :=
  List.insertionSort (· ≤ ·) (ts.flatMap (fun t => t.cols)).dedup

/-- Function `stack_align`: union schema, each table re-expressed over it,
rows concatenated in the order supplied (`pd.concat`). -/
def stackAlign (ts : List (Tbl α)) : Tbl α :=
  { cols := stackCols ts
    rows := ts.flatMap (fun t => t.rows.map (reexpand t)) }

end Stacker

namespace Checks

/-- Structured content of a fatal missing-column diagnostic: the missing
field name(s) the message interpolates, and the list of columns actually
present if the message includes one (`none` if it does not). -/
structure Diag where
  missingFields : List String
  presentCols : Option (List String)

/-- Variables `replicate_nsfh_wave2.py` requires in the raw extract. -/
def w2Required : List String := ["MA8", "MA7", "MI41", "MI140", "MI40", "MI42"]

/-- First required wave 2 variable absent from the raw columns (the `for`
loop raises at the first missing one). -/
def w2Missing (cols : List String) : Option String :=
  w2Required.find? (fun v => !cols.contains v)

/-- Wave 2 required-column check: raises
`ValueError(f"Expected variable {v} not found in {raw_path.name}")` — the
message names the variable and the file name only, not the columns present. -/
def w2Check (cols : List String) : Except Diag Unit :=
  match w2Missing cols with
  | some v => .error ⟨[v], none⟩
  | none => .ok ()

/-- Function `find_col` of wave 3: first candidate whose upper-cased name
matches an existing column (case-insensitive), returning that column. -/
def find_col (cols : List String) (cands : List String) : Option String :=
  (cands.find? (fun cand => cols.any (fun c => c.toUpper == cand.toUpper))).bind
    (fun cand => cols.find? (fun c => c.toUpper == cand.toUpper))

/-- Required wave 3 fields with their candidate source-column lists. -/
def w3Required : List (String × List String) :=
  [("DOBM", ["DOBM"]),
   ("DOBY", ["DOBY"]),
   ("IDATYY", ["IDATYY", "INTYY", "INTERVIEW_YEAR"]),
   ("IDATMM", ["IDATMM", "INTMM"]),
   ("IDATDD", ["IDATDD", "INTDD"]),
   ("SEX", ["SEX_A", "SEXA", "RSEX", "SEX"]),
   ("MS", ["MS_A", "MSA", "RMS", "MARSTAT", "MS"])]

/-- Names of required wave 3 fields with no matching column after merge. -/
def w3Missing (cols : List String) : List String :=
  (w3Required.filter (fun p => find_col cols p.2 = none)).map (fun p => p.1)

/-- Wave 3 required-column check: raises
`ValueError(f"Missing required columns after merge: {missing_cols}\n"
f"Found columns in roster: {list(df_roster.columns)[:50]} ...")` — the
diagnostic lists both the missing fields and the first 50 roster columns. -/
def w3Check (mergedCols rosterCols : List String) : Except Diag Unit :=
  if w3Missing mergedCols = [] then .ok ()
  else .error ⟨w3Missing mergedCols, some (rosterCols.take 50)⟩

end Checks

namespace Wave2T

open NSFH

/-- One wave 2 analytic row, restricted to the fields `cohort_sex_table`
reads.  `sex_label` is a plain string (`"Male"`, `"Female"` or `"nan"`,
see `Wave2.sex_label`). -/
structure Row where
  age_le_35 : Option ℚ
  cohort_primary : Option String
  sex_label : String
  ever_partnered : Option ℚ
  num_marriages : Option ℚ
  num_cohab_partners : Option ℚ
  remarried_2plus : Option ℚ
deriving DecidableEq

/-- Row filter of `cohort_sex_table`: `d[d["age_le_35"]==1]`, then
`d[d[cohort_col].notna()]` if `only_present`. -/
def dsel (rows : List Row) (onlyPresent : Bool) : List Row :=
  let d := rows.filter (fun r => r.age_le_35 == some 1)
  if onlyPresent then d.filter (fun r => r.cohort_primary.isSome) else d

/-- Group key of `d.groupby([cohort_col, "sex_label"], dropna=False)`. -/
def key (r : Row) : Option String × String := (r.cohort_primary, r.sex_label)

/-- Group keys in order of first appearance (grouping order does not matter
for any property below). -/
def keys (d : List Row) : List (Option String × String) := (d.map key).dedup

/-- Rows of one group. -/
def grp (d : List Row) (k : Option String × String) : List Row :=
  d.filter (fun r => key r == k)

/-- One row of the wave 2 cohort×sex aggregate (`N`, `P_ever_partnered` and
the three conditional metrics). -/
structure AggRow where
  cohort : Option String
  sex : String
  n : ℕ
  p : Option ℚ
  meanCohab : Option ℚ
  meanMar : Option ℚ
  pRem : Option ℚ
deriving DecidableEq

/-- Aggregate row of one group: `N = size`, `P_ever_partnered = mean`
(`NaN`-skipping), the conditional metrics means over the
`ever_partnered==1` sub-filter, merged `how="left"` (`NaN` if absent). -/
def mkAgg (d : List Row) (k : Option String × String) : AggRow :=
  let g := grp d k
  let partnered := g.filter (fun r => r.ever_partnered == some 1)
  { cohort := k.1, sex := k.2, n := g.length
    p := optMean (g.filterMap (fun r => r.ever_partnered))
    meanCohab := optMean (partnered.filterMap (fun r => r.num_cohab_partners))
    meanMar := optMean (partnered.filterMap (fun r => r.num_marriages))
    pRem := optMean (partnered.filterMap (fun r => r.remarried_2plus)) }

/-- The unfiltered aggregate `out` of `cohort_sex_table`. -/
def outAll (d : List Row) : List AggRow := (keys d).map (mkAgg d)

/-- Sex-label column set of the `pivotN` pivot (every sex value occurring
in the selected rows). -/
def sexCols (d : List Row) : List String := (d.map (fun r => r.sex_label)).dedup

/-- Pivot cell `pivotN.loc[c, s]`: the group's `N`, `NaN` if the group is
absent. -/
def nLookup (d : List Row) (c : Option String) (s : String) : Option ℕ :=
  let g := grp d (c, s)
  if g.isEmpty then none else some g.length

/-- Retention rule `pivotN.dropna().index[(pivotN.dropna()>=min_n).all(axis=1)]`:
a cohort is kept iff every sex column of the pivot has a non-`NaN` `N` for
it and all those `N` are `≥ min_n`. -/
def keep (d : List Row) (minN : ℕ) (c : Option String) : Bool :=
  (sexCols d).all (fun s =>
    match nLookup d c s with
    | some n => decide (minN ≤ n)
    | none => false)

/-- Function `cohort_sex_table`: the aggregate restricted to kept cohorts
(`out[out[cohort_col].isin(keep)]`). -/
def cohort_sex_table (rows : List Row) (onlyPresent : Bool) (minN : ℕ) :
    List AggRow :=
  let d := dsel rows onlyPresent
  (outAll d).filter (fun r => keep d minN r.cohort)

end Wave2T

namespace StackedT

open NSFH

/-- One stacked analytic row, restricted to the fields `compute_tables`
reads (pooled grouping: `wave` is not part of the key). -/
structure Row where
  age_le_35 : Option ℚ
  cohort_primary : Option String
  sex_label : Option String
  ever_partnered : Option ℚ
  num_cohab_partners : Option ℚ
  num_marriages : Option ℚ
  remarried_2plus : Option ℚ
deriving DecidableEq

/-- Restriction `a.loc[a["age_le_35"] == 1]` (a `NaN` indicator is
excluded). -/
def a35 (rows : List Row) : List Row :=
  rows.filter (fun r => r.age_le_35 == some 1)

/-- Group key of `groupby(["cohort_primary", "sex_label"], dropna=False)`:
`NaN` keys form their own groups. -/
def key (r : Row) : Option String × Option String := (r.cohort_primary, r.sex_label)

/-- Group keys in order of first appearance (grouping order does not matter
for any property below). -/
def keys (d : List Row) : List (Option String × Option String) := (d.map key).dedup

/-- Rows of one group. -/
def grp (d : List Row) (k : Option String × Option String) : List Row :=
  d.filter (fun r => key r == k)

/-- One row of `primary_all` as built by `metric_frame`. -/
structure AggRow where
  cohort : Option String
  sex : Option String
  n : ℕ
  p : Option ℚ
  meanCohab : Option ℚ
  meanMar : Option ℚ
  pRem : Option ℚ
deriving DecidableEq

/-- Computation of `metric_frame` on one group `d`: `N_age_le_35 = len(d)`,
`p_ever_partnered = d["ever_partnered"].mean()` (`NaN`-skipping), and the
three conditional metrics over `d.loc[d["ever_partnered"] == 1]`. -/
def mkAgg (d : List Row) (k : Option String × Option String) : AggRow :=
  let g := grp d k
  let partnered := g.filter (fun r => r.ever_partnered == some 1)
  { cohort := k.1, sex := k.2, n := g.length
    p := optMean (g.filterMap (fun r => r.ever_partnered))
    meanCohab := optMean (partnered.filterMap (fun r => r.num_cohab_partners))
    meanMar := optMean (partnered.filterMap (fun r => r.num_marriages))
    pRem := optMean (partnered.filterMap (fun r => r.remarried_2plus)) }

/-- Table `primary_all` of `compute_tables` (pooled path). -/
def primaryAll (rows : List Row) : List AggRow :=
  (keys (a35 rows)).map (mkAgg (a35 rows))

/-- Lookup of the aggregate row of one (cohort, sex) key. -/
def aggLookup (tab : List AggRow) (c s : Option String) : Option AggRow :=
  tab.find? (fun r => (r.cohort, r.sex) == (c, s))

end StackedT

namespace Wave3T

/-- One wave 3 analytic row, restricted to the fields the wave 3 table code
reads.  `primary_cohort` is a plain string (the script stores
`primary_cohort.astype(str)`, so a missing cohort is the string `"nan"`);
`ever_partnered`, `remarried_2plus` and `age_le_35` are total (see
`Wave3`). -/
structure Row where
  primary_cohort : String
  sex : Option ℚ
  age_le_35 : ℚ
  ever_partnered : ℚ
  num_cohab_partners : Option ℚ
  num_marriages : Option ℚ
  remarried_2plus : ℚ
deriving DecidableEq

/-- Restriction `analytic[analytic["age_le_35"]==1]`. -/
def a35 (rows : List Row) : List Row :=
  rows.filter (fun r => r.age_le_35 == 1)

/-- Group key of `groupby(["primary_cohort","sex"], dropna=False)`. -/
def key (r : Row) : String × Option ℚ := (r.primary_cohort, r.sex)

/-- Group keys of `gN` in order of first appearance. -/
def keys (d : List Row) : List (String × Option ℚ) := (d.map key).dedup

/-- Rows of one group. -/
def grp (d : List Row) (k : String × Option ℚ) : List Row :=
  d.filter (fun r => key r == k)

/-- Cell of the metric groupbys (which use the default `dropna=True`, so a
`NaN` sex key has no group and the `how="left"` merge leaves `NaN`):
mean of `ever_partnered` over the group. -/
def pLook (d : List Row) (c : String) (s : Option ℚ) : Option ℚ :=
  match s with
  | none => none
  | some v =>
    let g := grp d (c, some v)
    if g.isEmpty then none else some ((g.map (fun r => r.ever_partnered)).sum / g.length)

/-- One row of the wave 3 `primary_all` table. -/
structure AggRow where
  cohort : String
  sex : Option ℚ
  n : ℕ
  p : Option ℚ
  meanCohab : Option ℚ
  meanMar : Option ℚ
  pRem : Option ℚ
deriving DecidableEq

/-- Aggregate row of one `gN` group (conditional metrics over the
`ever_partnered==1` sub-filter, `NaN`-skipping means, merged `how="left"`). -/
def mkAgg (d : List Row) (k : String × Option ℚ) : AggRow :=
  let g := grp d k
  let partnered := (d.filter (fun r => r.ever_partnered == 1)).filter (fun r => key r == k)
  { cohort := k.1, sex := k.2, n := g.length
    p := pLook d k.1 k.2
    meanCohab := (match k.2 with
      | none => none
      | some _ => NSFH.optMean (partnered.filterMap (fun r => r.num_cohab_partners)))
    meanMar := (match k.2 with
      | none => none
      | some _ => NSFH.optMean (partnered.filterMap (fun r => r.num_marriages)))
    pRem := (match k.2 with
      | none => none
      | some _ =>
        if partnered.isEmpty then none
        else some ((partnered.map (fun r => r.remarried_2plus)).sum / partnered.length)) }

/-- Table `primary_all` of wave 3 (`cohort_table(a35)`; the final
`sort_values` only reorders rows and is omitted). -/
def primaryAll (rows : List Row) : List AggRow :=
  (keys (a35 rows)).map (mkAgg (a35 rows))

/-- Group size, `NaN` when the group is absent (cell of the `counts`
pivot). -/
def nLook (d : List Row) (c : String) (s : ℚ) : Option ℕ :=
  let g := grp d (c, some s)
  if g.isEmpty then none else some g.length

/-- Sex values occurring in the data (`pivot_table` drops `NaN` keys). -/
def sexVals (d : List Row) : List ℚ := (d.filterMap (fun r => r.sex)).dedup

/-- Wave 3 retention rule, threshold hard-coded to 200:
`counts.dropna().loc[(counts[1]>=thresh) & (counts[2]>=thresh)]`. -/
def keep (d : List Row) (c : String) : Bool :=
  (sexVals d).all (fun v => (nLook d c v).isSome) &&
  (match nLook d c 1 with | some n => decide (200 ≤ n) | none => false) &&
  (match nLook d c 2 with | some n => decide (200 ≤ n) | none => false)

/-- Table `primary_present` of wave 3. -/
def primaryPresent (rows : List Row) : List AggRow :=
  (primaryAll rows).filter (fun r => keep (a35 rows) r.cohort)

/-- Subtraction with `NaN` propagation. -/
def optSub (a b : Option ℚ) : Option ℚ :=
  match a, b with
  | some x, some y => some (x - y)
  | _, _ => none

/-- Wave 3 `ever_partnered_gap` table: built by pivoting **`primary_all`**
(not `primary_present`) on `p_ever_partnered` and taking column `2` minus
column `1`; `pivot_table` drops index rows whose values are all `NaN`. -/
def gapTable (rows : List Row) : List (String × Option ℚ) :=
  let d := a35 rows
  let cohorts := (d.map (fun r => r.primary_cohort)).dedup
  (cohorts.filter (fun c => (pLook d c (some 1)).isSome || (pLook d c (some 2)).isSome)).map
    (fun c => (c, optSub (pLook d c (some 2)) (pLook d c (some 1))))

end Wave3T

namespace StackedT

/-- Sex-label column set of the suppression pivot `n_by` (every sex label
occurring in the selected rows; `groupby(dropna=False)` keeps a null-label
group, which becomes a pivot column of its own). -/
def sexCols (d : List Row) : List (Option String) :=
  (d.map (fun r => r.sex_label)).dedup

/-- Pivot cell `n_by.loc[c, s]`: the (cohort, sex) group's `N`, `NaN` if the
group is absent. -/
def nCell (d : List Row) (c s : Option String) : Option ℕ :=
  let g := grp d (c, s)
  if g.isEmpty then none else some g.length

/-- Row test of `n_by.dropna()`: the cohort has a non-`NaN` `N` in every sex
column of the pivot. -/
def dropnaRow (d : List Row) (c : Option String) : Bool :=
  (sexCols d).all (fun s => (nCell d c s).isSome)

/-- One conjunct of the mask `(n_by.get(lbl, 0) >= n_threshold)`: when the
label's column exists the cohort's cell is compared (`NaN` compares false);
when the column is absent `get` returns the scalar default 0 and the
comparison `0 >= n_threshold` is broadcast. -/
def getCmp (d : List Row) (t : ℕ) (c : Option String) (lbl : String) : Bool :=
  if some lbl ∈ sexCols d then
    match nCell d c (some lbl) with
    | some n => decide (t ≤ n)
    | none => false
  else decide (t ≤ 0)

/-- Stacked retention rule (pooled path of `compute_tables`):
`keep = n_by.dropna().loc[(n_by.get("Female",0) >= t) & (n_by.get("Male",0) >= t)].index`. -/
def keep (d : List Row) (t : ℕ) (c : Option String) : Bool :=
  dropnaRow d c && getCmp d t c "Female" && getCmp d t c "Male"

/-- Table `primary_present` of `compute_tables` (pooled path):
`primary_all.loc[primary_all["cohort_primary"].isin(keep)]`. -/
def primaryPresent (rows : List Row) (t : ℕ) : List AggRow :=
  (primaryAll rows).filter (fun r => keep (a35 rows) t r.cohort)

end StackedT

namespace Wave1T

open NSFH

/-- One wave 1 analytic row, restricted to the fields `make_table` and the
suppression step read.  `age_le_35`, `ever_partnered` and `remarried_2plus`
are total 0/1 columns in wave 1 (see `Wave1`); `sex_label` comes from
`.map({1: "Male", 2: "Female"})` and is `NaN` for other codes. -/
structure Row where
  age_le_35 : ℚ
  cohort_primary : Option String
  sex_label : Option String
  ever_partnered : ℚ
  num_cohab_partners : Option ℚ
  num_marriages : Option ℚ
  remarried_2plus : ℚ
deriving DecidableEq

/-- Wave 1 suppression threshold, the module constant `MIN_N = 200`. -/
def MIN_N : ℕ := 200

/-- Restriction `sub = analytic[analytic["age_le_35"] == 1]`. -/
def sub (rows : List Row) : List Row :=
  rows.filter (fun r => r.age_le_35 == 1)

/-- Non-null cohort values of the selected rows
(`sub[cohort_col].dropna().unique()`; the source sorts them by string key,
which only reorders rows and does not matter for any property below). -/
def cohorts (rows : List Row) : List String :=
  ((sub rows).filterMap (fun r => r.cohort_primary)).dedup

/-- One (cohort, sex) group:
`sub[(sub[cohort_col] == cohort) & (sub["sex_label"] == sex)]`. -/
def grp (rows : List Row) (c s : String) : List Row :=
  (sub rows).filter (fun r => r.cohort_primary == some c && r.sex_label == some s)

/-- One row of the wave 1 `primary_all` table (`make_table`); the source
stores `str(cohort)`, so `cohort` is a plain string here. -/
structure AggRow where
  cohort : String
  sex : String
  n : ℕ
  p : ℚ
  meanCohab : Option ℚ
  meanMar : Option ℚ
  pRem : Option ℚ
deriving DecidableEq

/-- Aggregate row of one non-empty group: `N = len(d)`,
`P(ever partnered) = partnered.shape[0] / len(d)` (a count ratio, total
because wave 1's `ever_partnered` is never null), conditional metrics
`NaN`-skipping means over the `ever_partnered == 1` sub-filter. -/
def mkAgg (rows : List Row) (c s : String) : AggRow :=
  let d := grp rows c s
  let partnered := d.filter (fun r => r.ever_partnered == 1)
  { cohort := c, sex := s, n := d.length
    p := (partnered.length : ℚ) / (d.length : ℚ)
    meanCohab := optMean (partnered.filterMap (fun r => r.num_cohab_partners))
    meanMar := optMean (partnered.filterMap (fun r => r.num_marriages))
    pRem := if partnered.isEmpty then none
      else some ((partnered.map (fun r => r.remarried_2plus)).sum / partnered.length) }

/-- Table `primary_all` of wave 1 (`make_table`): one row per non-empty
(cohort, sex) group, sexes enumerated as `["Female", "Male"]` only and
empty groups skipped (`if len(d) == 0: continue`). -/
def tab (rows : List Row) : List AggRow :=
  (cohorts rows).flatMap (fun c =>
    (["Female", "Male"]).filterMap (fun s =>
      if (grp rows c s).isEmpty then none else some (mkAgg rows c s)))

/-- Pivot cell `counts.loc[c, s]` (pivot of `tab` on `N`, `aggfunc="first"`):
the group's `N`, `NaN` if the group is absent. -/
def nCell (rows : List Row) (c s : String) : Option ℕ :=
  if (grp rows c s).isEmpty then none else some (grp rows c s).length

/-- Whether the pivot has a column for sex `s` (some cohort has a non-empty
group of that sex). -/
def colExists (rows : List Row) (s : String) : Bool :=
  (cohorts rows).any (fun c => !(grp rows c s).isEmpty)

/-- One conjunct of the wave 1 mask `counts.get(lbl, 0) >= MIN_N`: cell
comparison when the column exists (`NaN` compares false), scalar default 0
otherwise. -/
def getCmp (rows : List Row) (c : String) (s : String) : Bool :=
  if colExists rows s then
    match nCell rows c s with
    | some n => decide (MIN_N ≤ n)
    | none => false
  else decide (MIN_N ≤ 0)

/-- Wave 1 retention rule:
`valid = counts[(counts.get("Male",0) >= MIN_N) & (counts.get("Female",0) >= MIN_N)].index`. -/
def valid (rows : List Row) (c : String) : Bool :=
  getCmp rows c "Male" && getCmp rows c "Female"

/-- Table `primary_present` of wave 1:
`tab_primary[tab_primary["cohort"].isin(valid)]`. -/
def present (rows : List Row) : List AggRow :=
  (tab rows).filter (fun r => valid rows r.cohort)

end Wave1T

/-- C1 (amended): in every wave `ever_partnered` is true iff at least one of
`ever_married`/`ever_cohabited` is true, and it is null exactly when both
indicator fields are null; otherwise it is false — including when one
indicator is null and the other false.  In waves 1 and 3 the indicator
fields themselves are never null (unknown source signals are coalesced to
known-false indicators), so `ever_partnered` is never null there. -/
theorem C1_ever_partnered_amended :
    (∀ em ec : Option ℚ,
      (Wave2.ever_partnered em ec = some 1 ↔ em = some 1 ∨ ec = some 1) ∧
      (Wave2.ever_partnered em ec = none ↔ em = none ∧ ec = none) ∧
      (Wave2.ever_partnered em ec = some 0 ↔
        ¬(em = some 1 ∨ ec = some 1) ∧ ¬(em = none ∧ ec = none))) ∧
    (∀ nm ncp : Option ℚ,
      (Wave1.ever_partnered (Wave1.ever_married nm) (Wave1.ever_cohabited ncp) = 1 ∨
        Wave1.ever_partnered (Wave1.ever_married nm) (Wave1.ever_cohabited ncp) = 0) ∧
      (Wave1.ever_partnered (Wave1.ever_married nm) (Wave1.ever_cohabited ncp) = 1 ↔
        Wave1.ever_married nm = 1 ∨ Wave1.ever_cohabited ncp = 1)) ∧
    (∀ ms ec : Option ℚ,
      (Wave3.ever_partnered ms ec = 1 ∨ Wave3.ever_partnered ms ec = 0) ∧
      (Wave3.ever_partnered ms ec = 1 ↔ Wave3.ever_married ms = 1 ∨ ec = some 1)) := by
  refine ⟨fun em ec => ?_, fun nm ncp => ?_, fun ms ec => ?_⟩
  · rcases em with _ | v <;> rcases ec with _ | w <;>
      simp only [Wave2.ever_partnered, NSFH.optEq] <;>
      split_ifs <;> simp_all
  · unfold Wave1.ever_partnered
    constructor
    · split_ifs <;> simp
    · constructor
      · intro h
        by_contra hc
        push_neg at hc
        simp [hc.1, hc.2] at h
      · intro h
        simp [h]
  · unfold Wave3.ever_partnered
    constructor
    · split_ifs <;> simp
    · constructor
      · intro h
        by_contra hc
        push_neg at hc
        simp [hc.1, hc.2] at h
      · intro h
        simp [h]

/-- C1 counterexample: a wave 2 record with both marriage signals missing
and a known-false cohabitation signal gets `ever_married = null`,
`ever_cohabited = 0` and `ever_partnered = 0` — false although one of the
underlying indicators is unknown, contradicting "false only when both
signals are known and both false". -/
theorem C1_ever_partnered_counterexample :
    Wave2.ever_married none none = none ∧
    Wave2.ever_cohabited none (some 0) = some 0 ∧
    Wave2.ever_partnered (Wave2.ever_married none none)
      (Wave2.ever_cohabited none (some 0)) = some 0 := by
  decide

/-- C4: the per-cohort gap statistic of `plot_gap_by_wave` satisfies the
independent-proportions Wald closed forms: `gap = p_F − p_M`,
`se = sqrt(p_F(1−p_F)/N_F + p_M(1−p_M)/N_M)`, and the interval is exactly
symmetric: `hi − gap = gap − lo = 1.96·se`. -/
theorem C4_gap_wald_formulas :
    ∀ (sq : ℚ → ℚ) (pF nF pM nM : ℚ),
      (Plots.gapStats sq pF nF pM nM).gap = pF - pM ∧
      (Plots.gapStats sq pF nF pM nM).se =
        sq (pF * (1 - pF) / nF + pM * (1 - pM) / nM) ∧
      (Plots.gapStats sq pF nF pM nM).hi - (Plots.gapStats sq pF nF pM nM).gap =
        1.96 * (Plots.gapStats sq pF nF pM nM).se ∧
      (Plots.gapStats sq pF nF pM nM).gap - (Plots.gapStats sq pF nF pM nM).lo =
        1.96 * (Plots.gapStats sq pF nF pM nM).se := by
  intro sq pF nF pM nM
  exact ⟨rfl, rfl, by simp [Plots.gapStats], by simp [Plots.gapStats]⟩

/-- C9 (amended): `age_le_35` is derived as `age ≤ 35` in every wave; a null
age propagates to a null indicator only in wave 2, while wave 1, wave 3 and
the stacked fallback code a null age as 0 (false). -/
theorem C9_age_le_35_amended :
    (∀ a : ℚ, Wave2.age_le_35 (some a) = some (if a ≤ 35 then 1 else 0)) ∧
    Wave2.age_le_35 none = none ∧
    (∀ a : ℚ, Wave1.age_le_35 (some a) = if a ≤ 35 then 1 else 0) ∧
    Wave1.age_le_35 none = 0 ∧
    (∀ a : ℚ, Wave3.age_le_35 (some a) = if a ≤ 35 then 1 else 0) ∧
    Wave3.age_le_35 none = 0 ∧
    (∀ a : ℚ, StackedW.age_le_35_fallback (some a) = if a ≤ 35 then 1 else 0) ∧
    StackedW.age_le_35_fallback none = 0 := by
  refine ⟨fun a => ?_, by decide, fun a => ?_, by decide, fun a => ?_, by decide,
    fun a => ?_, by decide⟩ <;>
    simp [Wave2.age_le_35, Wave1.age_le_35, Wave3.age_le_35,
      StackedW.age_le_35_fallback, NSFH.optLe] <;>
    split_ifs <;> simp_all

/-- C9 counterexample: a record with a null age is coded `age_le_35 = 0`
(known false), not null, by wave 1, wave 3 and the stacked fallback —
contradicting "it is null whenever age is null". -/
theorem C9_age_le_35_counterexample :
    Wave1.age_le_35 none = 0 ∧ Wave3.age_le_35 none = 0 ∧
    StackedW.age_le_35_fallback none = 0 := by
  decide

/-- C8 (amended): a wave missing a structurally required source field fails
fatally.  Both checks raise exactly when a required field is missing and
their diagnostics name the missing field(s); but only the wave 3 diagnostic
also lists the columns actually present (the first 50 roster columns) —
the wave 2 diagnostic names only the first missing variable (and the input
file name), not the columns present. -/
theorem C8_missing_column_amended :
    (∀ cols : List String,
      (Checks.w2Check cols = .ok () ↔ ∀ v ∈ Checks.w2Required, cols.contains v) ∧
      (∀ d : Checks.Diag, Checks.w2Check cols = .error d →
        d.presentCols = none ∧
        ∃ v, d.missingFields = [v] ∧ v ∈ Checks.w2Required ∧ ¬cols.contains v)) ∧
    (∀ mergedCols rosterCols : List String,
      (Checks.w3Check mergedCols rosterCols = .ok () ↔
        ∀ p ∈ Checks.w3Required, Checks.find_col mergedCols p.2 ≠ none) ∧
      (∀ d : Checks.Diag, Checks.w3Check mergedCols rosterCols = .error d →
        d.missingFields = Checks.w3Missing mergedCols ∧
        d.missingFields ≠ [] ∧
        d.presentCols = some (rosterCols.take 50))) := by
  have hmiss : ∀ cols : List String, Checks.w3Missing cols = [] ↔
      ∀ p ∈ Checks.w3Required, Checks.find_col cols p.2 ≠ none := by
    intro cols
    unfold Checks.w3Missing
    rw [List.map_eq_nil_iff, List.filter_eq_nil_iff]
    constructor
    · intro h p hp
      have := h p hp
      simpa using this
    · intro h p hp
      simpa using h p hp
  refine ⟨fun cols => ⟨?_, fun d hd => ?_⟩, fun mergedCols rosterCols => ⟨?_, fun d hd => ?_⟩⟩
  · unfold Checks.w2Check
    cases hfind : Checks.w2Missing cols with
    | none =>
      simp only [hfind]
      unfold Checks.w2Missing at hfind
      rw [List.find?_eq_none] at hfind
      simp only [true_iff]
      intro v hv
      have := hfind v hv
      simpa using this
    | some v =>
      simp only [hfind]
      constructor
      · intro h
        exact absurd h (by simp)
      · intro h
        unfold Checks.w2Missing at hfind
        have hv := List.mem_of_find?_eq_some hfind
        have hp := List.find?_some hfind
        simp only [Bool.not_eq_true'] at hp
        have := h v hv
        rw [hp] at this
        exact absurd this (by simp)
  · unfold Checks.w2Check at hd
    cases hfind : Checks.w2Missing cols with
    | none => rw [hfind] at hd; exact absurd hd (by simp)
    | some v =>
      rw [hfind] at hd
      have hd' : d = ⟨[v], none⟩ := by
        injection hd with h2
        exact h2.symm
      subst hd'
      refine ⟨rfl, v, rfl, List.mem_of_find?_eq_some hfind, ?_⟩
      have hp := List.find?_some hfind
      simpa using hp
  · unfold Checks.w3Check
    split_ifs with h
    · simpa using (hmiss mergedCols).1 h
    · constructor
      · intro hcontra
        exact absurd hcontra (by simp)
      · intro hall
        exact absurd ((hmiss mergedCols).2 hall) h
  · unfold Checks.w3Check at hd
    split_ifs at hd with h
    · have hd' : d = ⟨Checks.w3Missing mergedCols, some (rosterCols.take 50)⟩ := by
        injection hd with h2
        exact h2.symm
      subst hd'
      exact ⟨rfl, h, rfl⟩

/-- Finding an element equal to `k` returns `k` itself iff present. -/
theorem find?_beq_self {κ : Type} [BEq κ] [LawfulBEq κ] (L : List κ) (k : κ) :
    L.find? (fun x => x == k) = if k ∈ L then some k else none := by
  induction L with
  | nil => simp
  | cons a t ih =>
    by_cases ha : a = k
    · subst ha
      rw [List.find?_cons_of_pos _ (by simp)]
      simp
    · rw [List.find?_cons_of_neg _ (by simp [ha]), ih]
      have ha' : ¬k = a := fun h => ha h.symm
      simp [List.mem_cons, ha']

/-- A stacked group is empty iff its key is not among the group keys. -/
theorem stackedT_grp_isEmpty_iff (d : List StackedT.Row)
    (k : Option String × Option String) :
    (StackedT.grp d k).isEmpty = true ↔ k ∉ StackedT.keys d := by
  unfold StackedT.grp StackedT.keys
  rw [List.isEmpty_iff, List.filter_eq_nil_iff, List.mem_dedup, List.mem_map]
  constructor
  · rintro h ⟨r, hr, hkr⟩
    exact h r hr (by simp [hkr])
  · intro h r hr hb
    exact h ⟨r, hr, by simpa using hb⟩

/-- C5: the stacked aggregation, restricted to rows with `age_le_35 = 1`,
produces one row per non-empty (cohort, sex) group; its `N` is the group's
full row count, `p_ever_partnered` is the mean of `ever_partnered` over the
group's non-null values only (null exactly when the group has no non-null
value), and the conditional metrics are null whenever the
`ever_partnered = 1` subgroup is empty. -/
theorem C5_aggregation_metrics :
    ∀ (rows : List StackedT.Row) (c s : Option String),
      (StackedT.aggLookup (StackedT.primaryAll rows) c s =
        if (StackedT.grp (StackedT.a35 rows) (c, s)).isEmpty then none
        else some (StackedT.mkAgg (StackedT.a35 rows) (c, s))) ∧
      ((StackedT.mkAgg (StackedT.a35 rows) (c, s)).n =
        (StackedT.a35 rows).countP (fun r => StackedT.key r == (c, s))) ∧
      ((StackedT.mkAgg (StackedT.a35 rows) (c, s)).p = none ↔
        ∀ r ∈ StackedT.grp (StackedT.a35 rows) (c, s), r.ever_partnered = none) ∧
      (((StackedT.grp (StackedT.a35 rows) (c, s)).filter
          (fun r => r.ever_partnered == some 1)).isEmpty = true →
        (StackedT.mkAgg (StackedT.a35 rows) (c, s)).meanCohab = none ∧
        (StackedT.mkAgg (StackedT.a35 rows) (c, s)).meanMar = none ∧
        (StackedT.mkAgg (StackedT.a35 rows) (c, s)).pRem = none) := by
  intro rows c s
  refine ⟨?_, ?_, ?_, fun hpe => ?_⟩
  · have h3 : StackedT.aggLookup (StackedT.primaryAll rows) c s =
        Option.map (StackedT.mkAgg (StackedT.a35 rows))
          ((StackedT.keys (StackedT.a35 rows)).find? (fun x => x == (c, s))) := by
      exact List.find?_map _ _
    rw [h3, find?_beq_self]
    by_cases hmem : (c, s) ∈ StackedT.keys (StackedT.a35 rows)
    · have hne : (StackedT.grp (StackedT.a35 rows) (c, s)).isEmpty = false := by
        rw [← Bool.not_eq_true]
        exact fun h => (stackedT_grp_isEmpty_iff _ _).1 h hmem
      simp [hmem, hne]
    · have he : (StackedT.grp (StackedT.a35 rows) (c, s)).isEmpty = true :=
        (stackedT_grp_isEmpty_iff _ _).2 hmem
      simp [hmem, he]
  · show (StackedT.grp (StackedT.a35 rows) (c, s)).length = _
    unfold StackedT.grp
    exact (List.countP_eq_length_filter _ _).symm
  · show NSFH.optMean ((StackedT.grp (StackedT.a35 rows) (c, s)).filterMap
      (fun r => r.ever_partnered)) = none ↔ _
    unfold NSFH.optMean
    split_ifs with hemp
    · simp only [true_iff]
      rw [List.isEmpty_iff, List.filterMap_eq_nil_iff] at hemp
      exact hemp
    · constructor
      · intro h
        exact absurd h (by simp)
      · intro hall
        exact absurd (List.isEmpty_iff.2 (List.filterMap_eq_nil_iff.2 hall)) hemp
  · rw [List.isEmpty_iff] at hpe
    refine ⟨?_, ?_, ?_⟩ <;>
      · show NSFH.optMean (((StackedT.grp (StackedT.a35 rows) (c, s)).filter
          (fun r => r.ever_partnered == some 1)).filterMap _) = none
        rw [hpe]
        rfl

/-- A non-`NaN` wave 1 pivot cell forces its sex column to exist. -/
theorem wave1T_colExists_of_nCell {rows : List Wave1T.Row} {c s : String} {n : ℕ}
    (h : Wave1T.nCell rows c s = some n) : Wave1T.colExists rows s = true := by
  have hne : Wave1T.grp rows c s ≠ [] := by
    intro hnil
    unfold Wave1T.nCell at h
    rw [hnil] at h
    simp at h
  obtain ⟨r, hr⟩ := List.exists_mem_of_ne_nil _ hne
  have hr' := List.mem_filter.1 hr
  have hcs := hr'.2
  rw [Bool.and_eq_true] at hcs
  have hc : r.cohort_primary = some c := by simpa using hcs.1
  rw [Wave1T.colExists, List.any_eq_true]
  refine ⟨c, ?_, by simpa using hne⟩
  unfold Wave1T.cohorts
  rw [List.mem_dedup, List.mem_filterMap]
  exact ⟨r, hr'.1, hc⟩

/-- A non-`NaN` stacked pivot cell forces its sex label into the pivot's
column set. -/
theorem stackedT_sexCols_of_nCell {d : List StackedT.Row} {c s : Option String}
    {n : ℕ} (h : StackedT.nCell d c s = some n) : s ∈ StackedT.sexCols d := by
  have hne : StackedT.grp d (c, s) ≠ [] := by
    intro hnil
    unfold StackedT.nCell at h
    rw [hnil] at h
    simp at h
  obtain ⟨r, hr⟩ := List.exists_mem_of_ne_nil _ hne
  have hr' := List.mem_filter.1 hr
  have hkey : StackedT.key r = (c, s) := by simpa using hr'.2
  unfold StackedT.sexCols
  rw [List.mem_dedup, List.mem_map]
  exact ⟨r, hr'.1, congrArg Prod.snd hkey⟩

/-- C2 (amended): wave 1 and the stacked pipeline retain a cohort iff both
sexes are present for it and each sex's `N` meets the threshold — wave 1
unconditionally (its table only ever holds Male/Female groups, threshold
fixed at 200), the stacked pipeline whenever all sex labels of the selected
rows are Male/Female and the threshold is at least 1; in both, membership
in the present table is decided by the cohort's keep flag alone, so a
failing cohort is dropped entirely for both sexes.  Wave 2's
`cohort_sex_table` instead requires every sex-label value occurring in its
table to meet the threshold for the cohort: with records of both sexes and
no other labels this coincides with the claimed rule, but a cohort can be
retained from a table in which one sex is entirely absent (see the
counterexample). -/
theorem C2_suppression_amended :
    (∀ (rows : List Wave1T.Row) (c : String),
      (Wave1T.valid rows c = true ↔
        (∃ nM, Wave1T.nCell rows c "Male" = some nM ∧ Wave1T.MIN_N ≤ nM) ∧
        (∃ nF, Wave1T.nCell rows c "Female" = some nF ∧ Wave1T.MIN_N ≤ nF)) ∧
      (∀ r : Wave1T.AggRow, r ∈ Wave1T.present rows ↔
        r ∈ Wave1T.tab rows ∧ Wave1T.valid rows r.cohort = true)) ∧
    (∀ (rows : List StackedT.Row) (t : ℕ) (c : Option String),
      (∀ r ∈ StackedT.a35 rows,
        r.sex_label = some "Male" ∨ r.sex_label = some "Female") →
      1 ≤ t →
      (StackedT.keep (StackedT.a35 rows) t c = true ↔
        (∃ nM, StackedT.nCell (StackedT.a35 rows) c (some "Male") = some nM ∧
          t ≤ nM) ∧
        (∃ nF, StackedT.nCell (StackedT.a35 rows) c (some "Female") = some nF ∧
          t ≤ nF)) ∧
      (∀ r : StackedT.AggRow, r ∈ StackedT.primaryPresent rows t ↔
        r ∈ StackedT.primaryAll rows ∧
        StackedT.keep (StackedT.a35 rows) t r.cohort = true)) ∧
    (∀ (rows : List Wave2T.Row) (onlyPresent : Bool) (minN : ℕ) (c : Option String),
      (∀ r ∈ Wave2T.dsel rows onlyPresent,
        r.sex_label = "Male" ∨ r.sex_label = "Female") →
      "Male" ∈ Wave2T.sexCols (Wave2T.dsel rows onlyPresent) →
      "Female" ∈ Wave2T.sexCols (Wave2T.dsel rows onlyPresent) →
      (Wave2T.keep (Wave2T.dsel rows onlyPresent) minN c = true ↔
        (∃ nM, Wave2T.nLookup (Wave2T.dsel rows onlyPresent) c "Male" = some nM ∧
          minN ≤ nM) ∧
        (∃ nF, Wave2T.nLookup (Wave2T.dsel rows onlyPresent) c "Female" = some nF ∧
          minN ≤ nF)) ∧
      (∀ r : Wave2T.AggRow, r ∈ Wave2T.cohort_sex_table rows onlyPresent minN ↔
        r ∈ Wave2T.outAll (Wave2T.dsel rows onlyPresent) ∧
        Wave2T.keep (Wave2T.dsel rows onlyPresent) minN r.cohort = true)) := by
  refine ⟨fun rows c => ⟨?_, fun r => List.mem_filter⟩,
    fun rows t c h1 ht => ⟨?_, fun r => List.mem_filter⟩,
    fun rows onlyPresent minN c h1 hM hF => ?_⟩
  · -- wave 1 retention rule
    constructor
    · intro hk
      simp only [Wave1T.valid, Bool.and_eq_true] at hk
      obtain ⟨hMk, hFk⟩ := hk
      constructor
      · unfold Wave1T.getCmp at hMk
        split_ifs at hMk with hex
        · cases hn : Wave1T.nCell rows c "Male" with
          | none => simp [hn] at hMk
          | some n =>
            simp only [hn] at hMk
            exact ⟨n, rfl, by simpa using hMk⟩
        · exact absurd (by simpa using hMk : Wave1T.MIN_N ≤ 0)
            (by norm_num [Wave1T.MIN_N])
      · unfold Wave1T.getCmp at hFk
        split_ifs at hFk with hex
        · cases hn : Wave1T.nCell rows c "Female" with
          | none => simp [hn] at hFk
          | some n =>
            simp only [hn] at hFk
            exact ⟨n, rfl, by simpa using hFk⟩
        · exact absurd (by simpa using hFk : Wave1T.MIN_N ≤ 0)
            (by norm_num [Wave1T.MIN_N])
    · rintro ⟨⟨nM, hnM, hleM⟩, ⟨nF, hnF, hleF⟩⟩
      have hexM := wave1T_colExists_of_nCell hnM
      have hexF := wave1T_colExists_of_nCell hnF
      simp [Wave1T.valid, Wave1T.getCmp, hexM, hexF, hnM, hnF, hleM, hleF]
  · -- stacked retention rule
    have hsub : ∀ s ∈ StackedT.sexCols (StackedT.a35 rows),
        s = some "Male" ∨ s = some "Female" := by
      intro s hs
      unfold StackedT.sexCols at hs
      rw [List.mem_dedup, List.mem_map] at hs
      obtain ⟨r, hr, rfl⟩ := hs
      exact h1 r hr
    constructor
    · intro hk
      simp only [StackedT.keep, Bool.and_eq_true] at hk
      obtain ⟨⟨hdrop, hFk⟩, hMk⟩ := hk
      constructor
      · unfold StackedT.getCmp at hMk
        split_ifs at hMk with hin
        · cases hn : StackedT.nCell (StackedT.a35 rows) c (some "Male") with
          | none => simp [hn] at hMk
          | some n =>
            simp only [hn] at hMk
            exact ⟨n, rfl, by simpa using hMk⟩
        · have : t ≤ 0 := by simpa using hMk
          omega
      · unfold StackedT.getCmp at hFk
        split_ifs at hFk with hin
        · cases hn : StackedT.nCell (StackedT.a35 rows) c (some "Female") with
          | none => simp [hn] at hFk
          | some n =>
            simp only [hn] at hFk
            exact ⟨n, rfl, by simpa using hFk⟩
        · have : t ≤ 0 := by simpa using hFk
          omega
    · rintro ⟨⟨nM, hnM, hleM⟩, ⟨nF, hnF, hleF⟩⟩
      have hinM := stackedT_sexCols_of_nCell hnM
      have hinF := stackedT_sexCols_of_nCell hnF
      have hdrop : StackedT.dropnaRow (StackedT.a35 rows) c = true := by
        simp only [StackedT.dropnaRow, List.all_eq_true]
        intro s hs
        rcases hsub s hs with rfl | rfl
        · simp [hnM]
        · simp [hnF]
      simp [StackedT.keep, StackedT.getCmp, hdrop, hinM, hinF, hnM, hnF, hleM, hleF]
  · -- wave 2 retention rule
    have hsub : ∀ s ∈ Wave2T.sexCols (Wave2T.dsel rows onlyPresent),
        s = "Male" ∨ s = "Female" := by
      intro s hs
      unfold Wave2T.sexCols at hs
      rw [List.mem_dedup, List.mem_map] at hs
      obtain ⟨r, hr, rfl⟩ := hs
      exact h1 r hr
    constructor
    · unfold Wave2T.keep
      rw [List.all_eq_true]
      constructor
      · intro hk
        have hMk := hk _ hM
        have hFk := hk _ hF
        refine ⟨?_, ?_⟩
        · cases hn : Wave2T.nLookup (Wave2T.dsel rows onlyPresent) c "Male" with
          | none => rw [hn] at hMk; simp at hMk
          | some n =>
            rw [hn] at hMk
            exact ⟨n, rfl, by simpa using hMk⟩
        · cases hn : Wave2T.nLookup (Wave2T.dsel rows onlyPresent) c "Female" with
          | none => rw [hn] at hFk; simp at hFk
          | some n =>
            rw [hn] at hFk
            exact ⟨n, rfl, by simpa using hFk⟩
      · rintro ⟨⟨nM, hnM, hleM⟩, ⟨nF, hnF, hleF⟩⟩ s hs
        rcases hsub s hs with rfl | rfl
        · rw [hnM]
          simpa using hleM
        · rw [hnF]
          simpa using hleF
    · intro r
      exact List.mem_filter

/-- C2 counterexample: a wave 2 table whose only (age ≤ 35) record is a male
in cohort `A`, with threshold 1: both sexes are *not* present, yet the
cohort is retained in the present table (the pivot has only a `Male`
column, and `(pivotN.dropna() >= min_n).all(axis=1)` checks only the
columns that exist) — contradicting "retains the cohort iff both sexes are
present and each sex's N is at least the threshold". -/
theorem C2_suppression_counterexample :
    (Wave2T.cohort_sex_table
        [⟨some 1, some "A", "Male", some 1, some 1, some 1, some 0⟩] true 1).any
      (fun r => r.cohort == some "A") = true ∧
    ([⟨some 1, some "A", "Male", some 1, some 1, some 1, some 0⟩] :
        List Wave2T.Row).all (fun r => r.sex_label != "Female") = true := by
  decide

/-- C2 witness: `C2_suppression_amended` applied to concrete stacked and
wave 2 tables holding one male and one female record of cohort `A`
(threshold 1), discharging the sex-label and threshold hypotheses. -/
theorem C2_suppression_witness :
    StackedT.keep
      (StackedT.a35
        [⟨some 1, some "A", some "Male", some 1, none, none, none⟩,
         ⟨some 1, some "A", some "Female", some 1, none, none, none⟩])
      1 (some "A") = true ∧
    Wave2T.keep
      (Wave2T.dsel
        [⟨some 1, some "A", "Male", some 1, some 1, some 1, some 0⟩,
         ⟨some 1, some "A", "Female", some 1, some 1, some 1, some 0⟩] true)
      1 (some "A") = true :=
  ⟨((C2_suppression_amended.2.1
      [⟨some 1, some "A", some "Male", some 1, none, none, none⟩,
       ⟨some 1, some "A", some "Female", some 1, none, none, none⟩]
      1 (some "A") (by decide) (by decide)).1).mpr
    ⟨⟨1, by decide, by decide⟩, ⟨1, by decide, by decide⟩⟩,
   ((C2_suppression_amended.2.2
      [⟨some 1, some "A", "Male", some 1, some 1, some 1, some 0⟩,
       ⟨some 1, some "A", "Female", some 1, some 1, some 1, some 0⟩]
      true 1 (some "A") (by decide) (by decide) (by decide)).1).mpr
    ⟨⟨1, by decide, by decide⟩, ⟨1, by decide, by decide⟩⟩⟩

/-- C3: evaluation of the wave 3 table pipeline at a dataset whose single
cohort `1970–79` has one male and one female respondent (far below the
hard-coded threshold 200): the cohort is absent from `primary_present`,
yet the `ever_partnered_gap` table — built from `primary_all`, not from
`primary_present` — still contains a gap row for it. -/
theorem C3_wave3_gap_unsuppressed :
    (Wave3T.gapTable
        [⟨"1970–79", some 1, 1, 1, some 1, some 1, 0⟩,
         ⟨"1970–79", some 2, 1, 1, some 1, some 1, 0⟩]).any
      (fun g => g.1 == "1970–79") = true ∧
    Wave3T.primaryPresent
        [⟨"1970–79", some 1, 1, 1, some 1, some 1, 0⟩,
         ⟨"1970–79", some 2, 1, 1, some 1, some 1, 0⟩] = [] := by
  decide

/-- C5 witness: `C5_aggregation_metrics` applied to a one-row dataset whose
only respondent is not partnered, so the conditional-metric subgroup is
empty and all three conditional metrics are null. -/
theorem C5_aggregation_metrics_witness :
    (StackedT.mkAgg
      (StackedT.a35 [⟨some 1, some "A", some "Male", some 0, none, none, none⟩])
      (some "A", some "Male")).meanCohab = none ∧
    (StackedT.mkAgg
      (StackedT.a35 [⟨some 1, some "A", some "Male", some 0, none, none, none⟩])
      (some "A", some "Male")).meanMar = none ∧
    (StackedT.mkAgg
      (StackedT.a35 [⟨some 1, some "A", some "Male", some 0, none, none, none⟩])
      (some "A", some "Male")).pRem = none :=
  (C5_aggregation_metrics [⟨some 1, some "A", some "Male", some 0, none, none, none⟩]
    (some "A") (some "Male")).2.2.2 (by decide)

/-- C7: `stack_align` is schema-complete: the output columns are exactly the
(sorted) union of all input columns; rows are the concatenation of the
tables' rows in the order supplied, each preserving its internal order;
every stacked row comes from re-expressing a row of one input table, reads
null at columns its table lacks, and is unchanged at columns its table has. -/
theorem C7_stack_align_schema :
    ∀ (α : Type) (ts : List (Stacker.Tbl α)),
      (∀ c : String, c ∈ (Stacker.stackAlign ts).cols ↔ ∃ t ∈ ts, c ∈ t.cols) ∧
      List.Sorted (· ≤ ·) (Stacker.stackAlign ts).cols ∧
      (∀ (t : Stacker.Tbl α) (rest : List (Stacker.Tbl α)),
        (Stacker.stackAlign (t :: rest)).rows =
          t.rows.map (Stacker.reexpand t) ++ (Stacker.stackAlign rest).rows) ∧
      (∀ row ∈ (Stacker.stackAlign ts).rows, ∃ t ∈ ts, ∃ r ∈ t.rows,
        row = Stacker.reexpand t r) ∧
      (∀ (t : Stacker.Tbl α) (r : String → Option α) (c : String),
        c ∉ t.cols → Stacker.reexpand t r c = none) ∧
      (∀ (t : Stacker.Tbl α) (r : String → Option α) (c : String),
        c ∈ t.cols → Stacker.reexpand t r c = r c) := by
  intro α ts
  refine ⟨fun c => ?_, ?_, fun t rest => ?_, fun row hrow => ?_,
    fun t r c hc => ?_, fun t r c hc => ?_⟩
  · simp [Stacker.stackAlign, Stacker.stackCols, List.mem_insertionSort,
      List.mem_dedup, List.mem_flatMap]
  · exact List.sorted_insertionSort _ _
  · simp [Stacker.stackAlign]
  · simp only [Stacker.stackAlign, List.mem_flatMap, List.mem_map] at hrow
    obtain ⟨t, ht, r, hr, hre⟩ := hrow
    exact ⟨t, ht, r, hr, hre.symm⟩
  · simp [Stacker.reexpand, hc]
  · simp [Stacker.reexpand, hc]

/-- C7 witness: `C7_stack_align_schema` applied to a concrete one-table
stack, with the membership and non-membership hypotheses discharged. -/
theorem C7_stack_align_witness :
    (∃ t ∈ [(⟨["b"], [fun _ => some 7]⟩ : Stacker.Tbl ℕ)], ∃ r ∈ t.rows,
      Stacker.reexpand (⟨["b"], [fun _ => some 7]⟩ : Stacker.Tbl ℕ)
        (fun _ => some 7) = Stacker.reexpand t r) ∧
    Stacker.reexpand (⟨["b"], [fun _ => some 7]⟩ : Stacker.Tbl ℕ)
      (fun _ => some 7) "a" = none ∧
    Stacker.reexpand (⟨["b"], [fun _ => some 7]⟩ : Stacker.Tbl ℕ)
      (fun _ => some 7) "b" = some 7 := by
  obtain ⟨-, -, -, h4, h5, h6⟩ :=
    C7_stack_align_schema ℕ [⟨["b"], [fun _ => some 7]⟩]
  refine ⟨h4 _ ?_, h5 _ _ "a" (by decide), h6 _ _ "b" (by decide)⟩
  simp [Stacker.stackAlign]

/-- C8 counterexample: with `MA8` absent from the wave 2 raw extract the
check raises a diagnostic that names the missing variable but carries no
list of the columns actually present (`presentCols = none`), contradicting
"a diagnostic that names the missing field and the columns actually
present". -/
theorem C8_missing_column_counterexample :
    Checks.w2Check ["MA7", "MI41", "MI140", "MI40", "MI42"] =
      .error ⟨["MA8"], none⟩ := rfl

/-- C8 witness: the error branch of `C8_missing_column_amended` applied to
a concrete wave 2 extract missing `MA8`. -/
theorem C8_missing_column_witness :
    (⟨["MA8"], none⟩ : Checks.Diag).presentCols = none ∧
    ∃ v, (⟨["MA8"], none⟩ : Checks.Diag).missingFields = [v] ∧
      v ∈ Checks.w2Required ∧
      ¬(["MA7", "MI41", "MI140", "MI40", "MI42"] : List String).contains v :=
  (C8_missing_column_amended.1 ["MA7", "MI41", "MI140", "MI40", "MI42"]).2
    ⟨["MA8"], none⟩ rfl

/-- Wave 3 `ever_married` only takes the values 0 and 1. -/
theorem wave3_ever_married_01 (ms : Option ℚ) :
    Wave3.ever_married ms = 0 ∨ Wave3.ever_married ms = 1 := by
  unfold Wave3.ever_married; split_ifs <;> simp

/-- Wave 3 `remarried_2plus` only takes the values 0 and 1. -/
theorem wave3_remarried_01 (ms mb : Option ℚ) :
    Wave3.remarried_2plus ms mb = 0 ∨ Wave3.remarried_2plus ms mb = 1 := by
  unfold Wave3.remarried_2plus; split_ifs <;> simp

/-- A `pd.cut` scheme whose bins cover a value exactly once assigns it a
label. -/
theorem pdCut_isSome_of_countP_eq_one {spec : List Binning.Iv} {y : ℚ}
    (h : spec.countP (Binning.memIv y) = 1) :
    (Binning.pdCut spec (some y)).isSome := by
  have hex : ∃ iv ∈ spec, Binning.memIv y iv :=
    List.countP_pos_iff.1 (h ▸ Nat.one_pos)
  obtain ⟨iv', hfind⟩ := Option.isSome_iff_exists.1 (List.find?_isSome.2 hex)
  simp [Binning.pdCut, hfind]

/-- Wave 1's ten-year scheme covers every rational birth year exactly once. -/
theorem w1DecadeSpec_covers (y : ℚ) :
    Binning.w1DecadeSpec.countP (Binning.memIv y) = 1 := by
  rcases le_or_lt y (1949.5 : ℚ) with h1 | h1
  · have n1 : ¬(1949.5 : ℚ) < y := not_lt.2 h1
    have n2 : ¬(1959.5 : ℚ) < y := fun h => n1 (by linarith)
    have n3 : ¬(1969.5 : ℚ) < y := fun h => n1 (by linarith)
    have n4 : ¬(1979.5 : ℚ) < y := fun h => n1 (by linarith)
    simp [Binning.w1DecadeSpec, List.countP_cons, Binning.memIv, h1, n1, n2, n3, n4]
  rcases le_or_lt y (1959.5 : ℚ) with h2 | h2
  · have m1 : ¬y ≤ (1949.5 : ℚ) := not_le.2 h1
    have n2 : ¬(1959.5 : ℚ) < y := not_lt.2 h2
    have n3 : ¬(1969.5 : ℚ) < y := fun h => n2 (by linarith)
    have n4 : ¬(1979.5 : ℚ) < y := fun h => n2 (by linarith)
    simp [Binning.w1DecadeSpec, List.countP_cons, Binning.memIv, h1, h2, m1, n2, n3, n4]
  rcases le_or_lt y (1969.5 : ℚ) with h3 | h3
  · have m1 : ¬y ≤ (1949.5 : ℚ) := not_le.2 (by linarith)
    have m2 : ¬y ≤ (1959.5 : ℚ) := not_le.2 h2
    have n3 : ¬(1969.5 : ℚ) < y := not_lt.2 h3
    have n4 : ¬(1979.5 : ℚ) < y := fun h => n3 (by linarith)
    simp [Binning.w1DecadeSpec, List.countP_cons, Binning.memIv, h2, h3, m1, m2, n3, n4]
  rcases le_or_lt y (1979.5 : ℚ) with h4 | h4
  · have m1 : ¬y ≤ (1949.5 : ℚ) := not_le.2 (by linarith)
    have m2 : ¬y ≤ (1959.5 : ℚ) := not_le.2 (by linarith)
    have m3 : ¬y ≤ (1969.5 : ℚ) := not_le.2 h3
    have n4 : ¬(1979.5 : ℚ) < y := not_lt.2 h4
    simp [Binning.w1DecadeSpec, List.countP_cons, Binning.memIv, h3, h4, m1, m2, m3, n4]
  · have m1 : ¬y ≤ (1949.5 : ℚ) := not_le.2 (by linarith)
    have m2 : ¬y ≤ (1959.5 : ℚ) := not_le.2 (by linarith)
    have m3 : ¬y ≤ (1969.5 : ℚ) := not_le.2 (by linarith)
    have m4 : ¬y ≤ (1979.5 : ℚ) := not_le.2 h4
    simp [Binning.w1DecadeSpec, List.countP_cons, Binning.memIv, h4, m1, m2, m3, m4]

/-- Wave 3's primary scheme covers every rational birth year exactly once. -/
theorem w3PrimarySpec_covers (y : ℚ) :
    Binning.w3PrimarySpec.countP (Binning.memIv y) = 1 := by
  rcases le_or_lt y (1939 : ℚ) with h1 | h1
  · have n1 : ¬(1939 : ℚ) < y := not_lt.2 h1
    have n2 : ¬(1949 : ℚ) < y := fun h => n1 (by linarith)
    have n3 : ¬(1959 : ℚ) < y := fun h => n1 (by linarith)
    have n4 : ¬(1969 : ℚ) < y := fun h => n1 (by linarith)
    have n5 : ¬(1979 : ℚ) < y := fun h => n1 (by linarith)
    have n6 : ¬(1989 : ℚ) < y := fun h => n1 (by linarith)
    have n7 : ¬(1999 : ℚ) < y := fun h => n1 (by linarith)
    simp [Binning.w3PrimarySpec, List.countP_cons, Binning.memIv, h1, n1, n2, n3, n4, n5, n6, n7]
  rcases le_or_lt y (1949 : ℚ) with h2 | h2
  · have m1 : ¬y ≤ (1939 : ℚ) := not_le.2 h1
    have n2 : ¬(1949 : ℚ) < y := not_lt.2 h2
    have n3 : ¬(1959 : ℚ) < y := fun h => n2 (by linarith)
    have n4 : ¬(1969 : ℚ) < y := fun h => n2 (by linarith)
    have n5 : ¬(1979 : ℚ) < y := fun h => n2 (by linarith)
    have n6 : ¬(1989 : ℚ) < y := fun h => n2 (by linarith)
    have n7 : ¬(1999 : ℚ) < y := fun h => n2 (by linarith)
    simp [Binning.w3PrimarySpec, List.countP_cons, Binning.memIv, h1, h2, m1, n2, n3, n4, n5, n6, n7]
  rcases le_or_lt y (1959 : ℚ) with h3 | h3
  · have m1 : ¬y ≤ (1939 : ℚ) := not_le.2 (by linarith)
    have m2 : ¬y ≤ (1949 : ℚ) := not_le.2 h2
    have n3 : ¬(1959 : ℚ) < y := not_lt.2 h3
    have n4 : ¬(1969 : ℚ) < y := fun h => n3 (by linarith)
    have n5 : ¬(1979 : ℚ) < y := fun h => n3 (by linarith)
    have n6 : ¬(1989 : ℚ) < y := fun h => n3 (by linarith)
    have n7 : ¬(1999 : ℚ) < y := fun h => n3 (by linarith)
    simp [Binning.w3PrimarySpec, List.countP_cons, Binning.memIv, h2, h3, m1, m2, n3, n4, n5, n6, n7]
  rcases le_or_lt y (1969 : ℚ) with h4 | h4
  · have m1 : ¬y ≤ (1939 : ℚ) := not_le.2 (by linarith)
    have m2 : ¬y ≤ (1949 : ℚ) := not_le.2 (by linarith)
    have m3 : ¬y ≤ (1959 : ℚ) := not_le.2 h3
    have n4 : ¬(1969 : ℚ) < y := not_lt.2 h4
    have n5 : ¬(1979 : ℚ) < y := fun h => n4 (by linarith)
    have n6 : ¬(1989 : ℚ) < y := fun h => n4 (by linarith)
    have n7 : ¬(1999 : ℚ) < y := fun h => n4 (by linarith)
    simp [Binning.w3PrimarySpec, List.countP_cons, Binning.memIv, h3, h4, m1, m2, m3, n4, n5, n6, n7]
  rcases le_or_lt y (1979 : ℚ) with h5 | h5
  · have m1 : ¬y ≤ (1939 : ℚ) := not_le.2 (by linarith)
    have m2 : ¬y ≤ (1949 : ℚ) := not_le.2 (by linarith)
    have m3 : ¬y ≤ (1959 : ℚ) := not_le.2 (by linarith)
    have m4 : ¬y ≤ (1969 : ℚ) := not_le.2 h4
    have n5 : ¬(1979 : ℚ) < y := not_lt.2 h5
    have n6 : ¬(1989 : ℚ) < y := fun h => n5 (by linarith)
    have n7 : ¬(1999 : ℚ) < y := fun h => n5 (by linarith)
    simp [Binning.w3PrimarySpec, List.countP_cons, Binning.memIv, h4, h5, m1, m2, m3, m4, n5, n6, n7]
  rcases le_or_lt y (1989 : ℚ) with h6 | h6
  · have m1 : ¬y ≤ (1939 : ℚ) := not_le.2 (by linarith)
    have m2 : ¬y ≤ (1949 : ℚ) := not_le.2 (by linarith)
    have m3 : ¬y ≤ (1959 : ℚ) := not_le.2 (by linarith)
    have m4 : ¬y ≤ (1969 : ℚ) := not_le.2 (by linarith)
    have m5 : ¬y ≤ (1979 : ℚ) := not_le.2 h5
    have n6 : ¬(1989 : ℚ) < y := not_lt.2 h6
    have n7 : ¬(1999 : ℚ) < y := fun h => n6 (by linarith)
    simp [Binning.w3PrimarySpec, List.countP_cons, Binning.memIv, h5, h6, m1, m2, m3, m4, m5, n6, n7]
  rcases le_or_lt y (1999 : ℚ) with h7 | h7
  · have m1 : ¬y ≤ (1939 : ℚ) := not_le.2 (by linarith)
    have m2 : ¬y ≤ (1949 : ℚ) := not_le.2 (by linarith)
    have m3 : ¬y ≤ (1959 : ℚ) := not_le.2 (by linarith)
    have m4 : ¬y ≤ (1969 : ℚ) := not_le.2 (by linarith)
    have m5 : ¬y ≤ (1979 : ℚ) := not_le.2 (by linarith)
    have m6 : ¬y ≤ (1989 : ℚ) := not_le.2 h6
    have n7 : ¬(1999 : ℚ) < y := not_lt.2 h7
    simp [Binning.w3PrimarySpec, List.countP_cons, Binning.memIv, h6, h7, m1, m2, m3, m4, m5, m6, n7]
  · have m1 : ¬y ≤ (1939 : ℚ) := not_le.2 (by linarith)
    have m2 : ¬y ≤ (1949 : ℚ) := not_le.2 (by linarith)
    have m3 : ¬y ≤ (1959 : ℚ) := not_le.2 (by linarith)
    have m4 : ¬y ≤ (1969 : ℚ) := not_le.2 (by linarith)
    have m5 : ¬y ≤ (1979 : ℚ) := not_le.2 (by linarith)
    have m6 : ¬y ≤ (1989 : ℚ) := not_le.2 (by linarith)
    have m7 : ¬y ≤ (1999 : ℚ) := not_le.2 h7
    simp [Binning.w3PrimarySpec, List.countP_cons, Binning.memIv, h7, m1, m2, m3, m4, m5, m6, m7]

/-- Wave 3's ten-year scheme covers every rational birth year exactly once. -/
theorem w3DecadeSpec_covers (y : ℚ) :
    Binning.w3DecadeSpec.countP (Binning.memIv y) = 1 := by
  rcases le_or_lt y (1949 : ℚ) with h1 | h1
  · have n1 : ¬(1949 : ℚ) < y := not_lt.2 h1
    have n2 : ¬(1959 : ℚ) < y := fun h => n1 (by linarith)
    have n3 : ¬(1969 : ℚ) < y := fun h => n1 (by linarith)
    have n4 : ¬(1979 : ℚ) < y := fun h => n1 (by linarith)
    simp [Binning.w3DecadeSpec, List.countP_cons, Binning.memIv, h1, n1, n2, n3, n4]
  rcases le_or_lt y (1959 : ℚ) with h2 | h2
  · have m1 : ¬y ≤ (1949 : ℚ) := not_le.2 h1
    have n2 : ¬(1959 : ℚ) < y := not_lt.2 h2
    have n3 : ¬(1969 : ℚ) < y := fun h => n2 (by linarith)
    have n4 : ¬(1979 : ℚ) < y := fun h => n2 (by linarith)
    simp [Binning.w3DecadeSpec, List.countP_cons, Binning.memIv, h1, h2, m1, n2, n3, n4]
  rcases le_or_lt y (1969 : ℚ) with h3 | h3
  · have m1 : ¬y ≤ (1949 : ℚ) := not_le.2 (by linarith)
    have m2 : ¬y ≤ (1959 : ℚ) := not_le.2 h2
    have n3 : ¬(1969 : ℚ) < y := not_lt.2 h3
    have n4 : ¬(1979 : ℚ) < y := fun h => n3 (by linarith)
    simp [Binning.w3DecadeSpec, List.countP_cons, Binning.memIv, h2, h3, m1, m2, n3, n4]
  rcases le_or_lt y (1979 : ℚ) with h4 | h4
  · have m1 : ¬y ≤ (1949 : ℚ) := not_le.2 (by linarith)
    have m2 : ¬y ≤ (1959 : ℚ) := not_le.2 (by linarith)
    have m3 : ¬y ≤ (1969 : ℚ) := not_le.2 h3
    have n4 : ¬(1979 : ℚ) < y := not_lt.2 h4
    simp [Binning.w3DecadeSpec, List.countP_cons, Binning.memIv, h3, h4, m1, m2, m3, n4]
  · have m1 : ¬y ≤ (1949 : ℚ) := not_le.2 (by linarith)
    have m2 : ¬y ≤ (1959 : ℚ) := not_le.2 (by linarith)
    have m3 : ¬y ≤ (1969 : ℚ) := not_le.2 (by linarith)
    have m4 : ¬y ≤ (1979 : ℚ) := not_le.2 h4
    simp [Binning.w3DecadeSpec, List.countP_cons, Binning.memIv, h4, m1, m2, m3, m4]

/-- C6 (amended): the ten-year schemes of every wave and the wave 3 primary
scheme are open-ended and assign exactly one label to every finite birth
year; the wave 1 and wave 2 primary schemes are bounded, and a finite birth
year outside their outer cut points maps to null. -/
theorem C6_cohort_binning_amended :
    (∀ y : ℚ, Binning.w1DecadeSpec.countP (Binning.memIv y) = 1) ∧
    (∀ y : ℚ, Binning.w3PrimarySpec.countP (Binning.memIv y) = 1) ∧
    (∀ y : ℚ, Binning.w3DecadeSpec.countP (Binning.memIv y) = 1) ∧
    (∀ y : ℚ, (Binning.pdCut Binning.w1DecadeSpec (some y)).isSome) ∧
    (∀ y : ℚ, (Binning.pdCut Binning.w3PrimarySpec (some y)).isSome) ∧
    (∀ y : ℚ, (Binning.pdCut Binning.w3DecadeSpec (some y)).isSome) ∧
    (∀ b : ℤ, (Binning.w2DecadeBin (some b)).isSome) ∧
    (∀ y : ℚ, y < 1951.5 ∨ 1972.5 < y →
      Binning.pdCut Binning.w1PrimarySpec (some y) = none) ∧
    (∀ (start : ℚ) (nbins : ℕ) (y : ℚ), y < start →
      Binning.pdCut (Binning.w2PrimarySpec start nbins) (some y) = none) := by
  refine ⟨w1DecadeSpec_covers, w3PrimarySpec_covers, w3DecadeSpec_covers,
    fun y => pdCut_isSome_of_countP_eq_one (w1DecadeSpec_covers y),
    fun y => pdCut_isSome_of_countP_eq_one (w3PrimarySpec_covers y),
    fun y => pdCut_isSome_of_countP_eq_one (w3DecadeSpec_covers y),
    fun b => ?_, fun y hy => ?_, fun start nbins y hy => ?_⟩
  · simp only [Binning.w2DecadeBin]
    split_ifs <;> rfl
  · have h : Binning.w1PrimarySpec.find? (Binning.memIv y) = none := by
      apply List.find?_eq_none.2
      intro iv hiv
      rcases hy with hy | hy <;>
        fin_cases hiv <;>
        simp [Binning.memIv] <;>
        intro h' <;> [linarith; linarith; linarith; linarith; linarith;
          linarith; linarith; linarith; linarith; linarith]
    simp [Binning.pdCut, h]
  · have h : (Binning.w2PrimarySpec start nbins).find? (Binning.memIv y) = none := by
      apply List.find?_eq_none.2
      intro iv hiv
      unfold Binning.w2PrimarySpec at hiv
      obtain ⟨i, _, rfl⟩ := List.mem_map.1 hiv
      have hn : ¬(start + 5 * (i : ℚ) ≤ y) := by
        push_neg
        have : (0 : ℚ) ≤ 5 * (i : ℚ) := mul_nonneg (by norm_num) (Nat.cast_nonneg i)
        linarith
      simp [Binning.memIv, hn]
    simp [Binning.pdCut, h]

/-- C6 counterexample: birth year 1980 is a finite year, but the wave 1
primary scheme (bounded above at 1972.5) assigns it no label — the cohort
is null, contradicting "no finite birth year maps to null". -/
theorem C6_cohort_binning_counterexample :
    Binning.pdCut Binning.w1PrimarySpec (some 1980) = none := by
  have h : Binning.w1PrimarySpec.find? (Binning.memIv 1980) = none :=
    List.find?_eq_none.2 (by intro x hx; fin_cases hx <;> norm_num [Binning.memIv])
  simp [Binning.pdCut, h]

/-- C6 witness: the bounded-scheme conjuncts of `C6_cohort_binning_amended`
instantiated at concrete inputs. -/
theorem C6_cohort_binning_witness :
    Binning.pdCut Binning.w1PrimarySpec (some 1980) = none ∧
    Binning.pdCut (Binning.w2PrimarySpec 1955 4) (some 1940) = none := by
  obtain ⟨-, -, -, -, -, -, -, h8, h9⟩ := C6_cohort_binning_amended
  exact ⟨h8 1980 (Or.inr (by norm_num)), h9 1955 4 1940 (by norm_num)⟩

/-- C10: the wave 3 derived fields `ever_married`, `remarried_2plus`,
`ever_partnered` are always 0/1 (never null), a missing marital status is
coded `ever_married = 0`, and `num_marriages` always takes exactly one of
the values 0, 1, 2. -/
theorem C10_wave3_derived_total :
    (∀ ms mb : Option ℚ,
      (Wave3.ever_married ms = 0 ∨ Wave3.ever_married ms = 1) ∧
      (Wave3.remarried_2plus ms mb = 0 ∨ Wave3.remarried_2plus ms mb = 1) ∧
      (Wave3.num_marriages ms mb = some 0 ∨ Wave3.num_marriages ms mb = some 1 ∨
        Wave3.num_marriages ms mb = some 2)) ∧
    Wave3.ever_married none = 0 ∧
    (∀ ms ec : Option ℚ, Wave3.ever_partnered ms ec = 0 ∨ Wave3.ever_partnered ms ec = 1) := by
  refine ⟨fun ms mb =>
    ⟨wave3_ever_married_01 ms, wave3_remarried_01 ms mb, ?_⟩, by decide, fun ms ec => ?_⟩
  · unfold Wave3.num_marriages
    rcases wave3_remarried_01 ms mb with hr | hr <;>
      rcases wave3_ever_married_01 ms with he | he <;>
      norm_num [hr, he]
  · unfold Wave3.ever_partnered
    split_ifs <;> simp
